import Mathlib

/-!
Verification of the VDG investment analyzer's financial metrics engine.

The definitions below are a shallow embedding, over `ℚ`, of
`calculateMetrics`, `calculateValuation` (client/src/lib/calculations.ts)
and the portfolio totals computed in `Dashboard.tsx`.  JavaScript numbers
are modelled as rationals; `Math.round` is modelled as `jsRound`
(floor of `x + 1/2`, which is how `Math.round` resolves ties, including
for negative arguments); division by zero follows the `ℚ` convention
`x / 0 = 0` (the source only divides under explicit positivity guards,
except inside the annuity formula where a zero denominator needs
`numPayments = 0`).
-/

namespace VDG

inductive PropertyType
  | LTR
  | STR
deriving DecidableEq

inductive ExpenseTiming
  | IMMEDIATE
  | YEAR_1
deriving DecidableEq

/-- The `shared` block of a `Property` (schema fields used by the engine). -/
structure SharedInputs where
  purchasePrice : ℚ
  downpayment : ℚ
  loanAmount : ℚ
  loanRemaining : ℚ
  interestRate : ℚ
  loanTermYears : ℕ
  closingCosts : ℚ
deriving DecidableEq

/-- The LTR detail payload (fields read by `calculateMetrics`). -/
structure LtrDetails where
  grossRentPerMonth : ℚ
  numberOfUnits : ℚ
  pmFeePercent : ℚ
  annualPropertyTax : ℚ
  annualInsurance : ℚ
  monthlyRepairReserve : ℚ
deriving DecidableEq

/-- The STR detail payload (fields read by `calculateMetrics`). -/
structure StrDetails where
  dailyRate : ℚ
  daysInMonth : ℚ
  occupancyRate : ℚ
  coHostFeePercent : ℚ
  cleaningFeePerStay : ℚ
  avgStaysPerMonth : ℚ
  monthlyUtilities : ℚ
  annualPropertyTax : ℚ
  annualInsurance : ℚ
deriving DecidableEq

/-- One manual CapEx row: `{name, estimatedCost, timing}`. -/
structure ManualExpense where
  name : String
  estimatedCost : ℚ
  timing : ExpenseTiming
deriving DecidableEq

/-- A property: variant tag, shared financials, the two optional detail
payloads and the manual-expense list. -/
structure Property where
  type : PropertyType
  shared : SharedInputs
  ltr : Option LtrDetails := none
  str : Option StrDetails := none
  manualExpenses : List ManualExpense := []
deriving DecidableEq

/-- The output record of `calculateMetrics`. -/
structure FinancialMetrics where
  monthlyMortgagePayment : ℚ
  grossMonthlyIncome : ℚ
  totalMonthlyExpenses : ℚ
  netMonthlyIncome : ℚ
  netMonthlyCashFlow : ℚ
  initialCashInvested : ℚ
  cashOnCashReturn : ℚ
  capRate : ℚ
  annualGrossIncome : ℚ
  annualNetCashFlow : ℚ
  totalManualCapEx : ℚ
  immediateCapEx : ℚ
  year1CapEx : ℚ
  adjustedInitialCashInvested : ℚ
  adjustedCashOnCashReturn : ℚ
  adjustedCapRate : ℚ
deriving DecidableEq

/-- Model of `Math.round`: nearest integer, ties toward positive infinity. -/
def jsRound (x : ℚ) : ℤ := ⌊x + 1/2⌋

/-- Model of `Math.round(x * 100) / 100`: round to cents. -/
def round2 (x : ℚ) : ℚ := (jsRound (x * 100) : ℚ) / 100

/-- Source line `const monthlyRate = shared.interestRate / 100 / 12`. -/
def monthlyRateOf (shared : SharedInputs) : ℚ := shared.interestRate / 100 / 12

/-- Source line `const numPayments = shared.loanTermYears * 12`. -/
def numPaymentsOf (shared : SharedInputs) : ℕ := shared.loanTermYears * 12

/-- Source: `shared.loanRemaining > 0 ? shared.loanRemaining : shared.loanAmount`. -/
def activeLoanBalanceOf (shared : SharedInputs) : ℚ :=
  if 0 < shared.loanRemaining then shared.loanRemaining else shared.loanAmount

/-- Lines 9-15 of calculations.ts: the amortized monthly payment, `0` unless
`activeLoanBalance > 0 && monthlyRate > 0`. -/
def monthlyMortgagePaymentOf (shared : SharedInputs) : ℚ :=
  if 0 < activeLoanBalanceOf shared ∧ 0 < monthlyRateOf shared then
    activeLoanBalanceOf shared *
      (monthlyRateOf shared * (1 + monthlyRateOf shared) ^ numPaymentsOf shared) /
      ((1 + monthlyRateOf shared) ^ numPaymentsOf shared - 1)
  else 0

/-- Lines 17-40 of calculations.ts: `(grossMonthlyIncome, totalMonthlyExpenses)`.
The LTR branch fires when the tag is LTR and `property.ltr` is present,
the STR branch when the tag is STR and `property.str` is present,
and otherwise both stay `0`. -/
def incomeExpensesOf (property : Property) : ℚ × ℚ :=
  match property.type, property.ltr, property.str with
  | PropertyType.LTR, some ltr, _ =>
      let grossMonthlyIncome := ltr.grossRentPerMonth * ltr.numberOfUnits
      let pmFee := grossMonthlyIncome * (ltr.pmFeePercent / 100)
      let monthlyTax := ltr.annualPropertyTax / 12
      let monthlyInsurance := ltr.annualInsurance / 12
      (grossMonthlyIncome,
        pmFee + monthlyTax + monthlyInsurance + ltr.monthlyRepairReserve)
  | PropertyType.STR, _, some str =>
      let bookedNights := str.daysInMonth * (str.occupancyRate / 100)
      let grossMonthlyIncome := bookedNights * str.dailyRate
      let coHostFee := grossMonthlyIncome * (str.coHostFeePercent / 100)
      let cleaningCosts := str.cleaningFeePerStay * str.avgStaysPerMonth
      let monthlyTax := str.annualPropertyTax / 12
      let monthlyInsurance := str.annualInsurance / 12
      (grossMonthlyIncome,
        coHostFee + cleaningCosts + monthlyTax + monthlyInsurance + str.monthlyUtilities)
  | _, _, _ => (0, 0)

def grossMonthlyIncomeOf (property : Property) : ℚ := (incomeExpensesOf property).1

def totalMonthlyExpensesOf (property : Property) : ℚ := (incomeExpensesOf property).2

/-- Source: `grossMonthlyIncome - totalMonthlyExpenses`. -/
def netMonthlyIncomeOf (property : Property) : ℚ :=
  grossMonthlyIncomeOf property - totalMonthlyExpensesOf property

/-- Source: `netMonthlyIncome - monthlyMortgagePayment`. -/
def netMonthlyCashFlowOf (property : Property) : ℚ :=
  netMonthlyIncomeOf property - monthlyMortgagePaymentOf property.shared

/-- Source: `shared.downpayment > 0 ? shared.downpayment : (purchasePrice - loanAmount)`. -/
def downPaymentOf (shared : SharedInputs) : ℚ :=
  if 0 < shared.downpayment then shared.downpayment
  else shared.purchasePrice - shared.loanAmount

/-- Source: `downPayment + shared.closingCosts`. -/
def initialCashInvestedOf (property : Property) : ℚ :=
  downPaymentOf property.shared + property.shared.closingCosts

/-- Source: `netMonthlyCashFlow * 12`. -/
def annualNetCashFlowOf (property : Property) : ℚ := netMonthlyCashFlowOf property * 12

/-- Source: `(annualNetCashFlow / initialCashInvested) * 100`, guarded to `0`. -/
def cashOnCashReturnOf (property : Property) : ℚ :=
  if 0 < initialCashInvestedOf property then
    annualNetCashFlowOf property / initialCashInvestedOf property * 100
  else 0

/-- Source: `netMonthlyIncome * 12`. -/
def annualNOIOf (property : Property) : ℚ := netMonthlyIncomeOf property * 12

/-- Source: `(annualNOI / purchasePrice) * 100`, guarded to `0`. -/
def capRateOf (property : Property) : ℚ :=
  if 0 < property.shared.purchasePrice then
    annualNOIOf property / property.shared.purchasePrice * 100
  else 0

/-- Source: `.reduce((sum, e) => sum + e.estimatedCost, 0)`. -/
def sumCosts (expenses : List ManualExpense) : ℚ :=
  expenses.foldl (fun sum e => sum + e.estimatedCost) 0

/-- Sum of the items tagged IMMEDIATE. -/
def immediateCapExOf (property : Property) : ℚ :=
  sumCosts (property.manualExpenses.filter
    (fun e => decide (e.timing = ExpenseTiming.IMMEDIATE)))

/-- Sum of the items tagged YEAR_1. -/
def year1CapExOf (property : Property) : ℚ :=
  sumCosts (property.manualExpenses.filter
    (fun e => decide (e.timing = ExpenseTiming.YEAR_1)))

/-- Source: `immediateCapEx + year1CapEx`. -/
def totalManualCapExOf (property : Property) : ℚ :=
  immediateCapExOf property + year1CapExOf property

/-- Source: `initialCashInvested + immediateCapEx`. -/
def adjustedInitialCashInvestedOf (property : Property) : ℚ :=
  initialCashInvestedOf property + immediateCapExOf property

/-- Source: `annualNetCashFlow - year1CapEx`. -/
def adjustedAnnualNetCashFlowOf (property : Property) : ℚ :=
  annualNetCashFlowOf property - year1CapExOf property

/-- Source: `(adjustedAnnualNetCashFlow / adjustedInitialCashInvested) * 100`, guarded to `0`. -/
def adjustedCashOnCashReturnOf (property : Property) : ℚ :=
  if 0 < adjustedInitialCashInvestedOf property then
    adjustedAnnualNetCashFlowOf property / adjustedInitialCashInvestedOf property * 100
  else 0

/-- Source: `shared.purchasePrice + immediateCapEx`. -/
def totalPropertyCostOf (property : Property) : ℚ :=
  property.shared.purchasePrice + immediateCapExOf property

/-- Source: `(annualNOI / totalPropertyCost) * 100`, guarded to `0`. -/
def adjustedCapRateOf (property : Property) : ℚ :=
  if 0 < totalPropertyCostOf property then
    annualNOIOf property / totalPropertyCostOf property * 100
  else 0

/-- Source: `netMonthlyCashFlow - (year1CapEx / 12)`. -/
def adjustedNetMonthlyCashFlowOf (property : Property) : ℚ :=
  netMonthlyCashFlowOf property - year1CapExOf property / 12

/-- Source line `const hasManualCapEx = totalManualCapEx > 0`. -/
def hasManualCapExOf (property : Property) : Prop := 0 < totalManualCapExOf property

instance (property : Property) : Decidable (hasManualCapExOf property) := by
  unfold hasManualCapExOf; infer_instance

/-- The function `calculateMetrics` (calculations.ts lines 3-112): assembles the record,
selecting adjusted values as the primary fields when manual CapEx exists,
and rounding every field to cents. -/
def calculateMetrics (property : Property) : FinancialMetrics :=
  { monthlyMortgagePayment := round2 (monthlyMortgagePaymentOf property.shared)
    grossMonthlyIncome := round2 (grossMonthlyIncomeOf property)
    totalMonthlyExpenses := round2 (totalMonthlyExpensesOf property)
    netMonthlyIncome := round2 (netMonthlyIncomeOf property)
    netMonthlyCashFlow := round2 (if hasManualCapExOf property then
      adjustedNetMonthlyCashFlowOf property else netMonthlyCashFlowOf property)
    initialCashInvested := round2 (if hasManualCapExOf property then
      adjustedInitialCashInvestedOf property else initialCashInvestedOf property)
    cashOnCashReturn := round2 (if hasManualCapExOf property then
      adjustedCashOnCashReturnOf property else cashOnCashReturnOf property)
    capRate := round2 (if hasManualCapExOf property then
      adjustedCapRateOf property else capRateOf property)
    annualGrossIncome := round2 (grossMonthlyIncomeOf property * 12)
    annualNetCashFlow := round2 (if hasManualCapExOf property then
      adjustedAnnualNetCashFlowOf property else annualNetCashFlowOf property)
    totalManualCapEx := round2 (totalManualCapExOf property)
    immediateCapEx := round2 (immediateCapExOf property)
    year1CapEx := round2 (year1CapExOf property)
    adjustedInitialCashInvested := round2 (adjustedInitialCashInvestedOf property)
    adjustedCashOnCashReturn := round2 (adjustedCashOnCashReturnOf property)
    adjustedCapRate := round2 (adjustedCapRateOf property) }

/-- Source function `calculateValuation(annualNOI, marketCapRate)`. -/
def calculateValuation (annualNOI : ℚ) (marketCapRate : ℚ) : ℚ :=
  if marketCapRate ≤ 0 then 0 else annualNOI / (marketCapRate / 100)

/-- One entry of the dashboard portfolio: the property's tag and shared
inputs together with its stored `FinancialMetrics`. -/
structure PropertyAnalysis where
  type : PropertyType
  shared : SharedInputs
  metrics : FinancialMetrics

/-- The `totals` record computed in `Dashboard.tsx`. -/
structure Totals where
  totalValue : ℚ
  totalCashInvested : ℚ
  totalAnnualCashFlow : ℚ
  totalMonthlyCashFlow : ℚ
  totalAnnualNOI : ℚ
  avgCoC : ℚ
  avgCapRate : ℚ
  ltrCount : ℕ
  strCount : ℕ
  portfolioValuation : ℚ
  equityGain : ℚ

/-- From `Dashboard.tsx` lines 56-89: the portfolio aggregation (`reduce` is a
left fold starting at `0`; the averages are guarded on a nonempty list). -/
def computeTotals (portfolio : List PropertyAnalysis) (marketCapRate : ℚ) : Totals :=
  let totalValue := portfolio.foldl (fun sum p => sum + p.shared.purchasePrice) 0
  let totalCashInvested :=
    portfolio.foldl (fun sum p => sum + p.metrics.initialCashInvested) 0
  let totalAnnualCashFlow :=
    portfolio.foldl (fun sum p => sum + p.metrics.annualNetCashFlow) 0
  let totalMonthlyCashFlow :=
    portfolio.foldl (fun sum p => sum + p.metrics.netMonthlyCashFlow) 0
  let totalAnnualNOI :=
    portfolio.foldl (fun sum p => sum + p.metrics.netMonthlyIncome * 12) 0
  let avgCoC := if 0 < portfolio.length then
      portfolio.foldl (fun sum p => sum + p.metrics.cashOnCashReturn) 0 /
        (portfolio.length : ℚ)
    else 0
  let avgCapRate := if 0 < portfolio.length then
      portfolio.foldl (fun sum p => sum + p.metrics.capRate) 0 / (portfolio.length : ℚ)
    else 0
  let portfolioValuation := calculateValuation totalAnnualNOI marketCapRate
  { totalValue := totalValue
    totalCashInvested := totalCashInvested
    totalAnnualCashFlow := totalAnnualCashFlow
    totalMonthlyCashFlow := totalMonthlyCashFlow
    totalAnnualNOI := totalAnnualNOI
    avgCoC := avgCoC
    avgCapRate := avgCapRate
    ltrCount := (portfolio.filter (fun p => decide (p.type = PropertyType.LTR))).length
    strCount := (portfolio.filter (fun p => decide (p.type = PropertyType.STR))).length
    portfolioValuation := portfolioValuation
    equityGain := portfolioValuation - totalValue }

/-- The spec's annuity formula, written exactly as the spec states it:
`payment = principal * r * (1+r)^n / ((1+r)^n - 1)`.  It is compared with
the payment the code computes. -/
def annuityPayment (principal : ℚ) (r : ℚ) (n : ℕ) : ℚ :=
  principal * r * (1 + r) ^ n / ((1 + r) ^ n - 1)

/-- The property produced by `setRate property r`: the same property with
the annual interest rate replaced, every other input held constant. -/
def setRate (property : Property) (r : ℚ) : Property :=
  { property with shared := { property.shared with interestRate := r } }

/-! Concrete inputs used by the worked example, the counterexamples and the
witnesses below. -/

/-- The spec's worked LTR example: $200,000 loan at 6% for 30 years. -/
def exShared : SharedInputs :=
  { purchasePrice := 250000, downpayment := 50000, loanAmount := 200000,
    loanRemaining := 0, interestRate := 6, loanTermYears := 30, closingCosts := 0 }

/-- The spec's worked LTR example: rent $1,500, 2 units, 10% PM fee,
$2,400/yr tax, $1,200/yr insurance, $50/mo reserve. -/
def exLtr : LtrDetails :=
  { grossRentPerMonth := 1500, numberOfUnits := 2, pmFeePercent := 10,
    annualPropertyTax := 2400, annualInsurance := 1200, monthlyRepairReserve := 50 }

/-- The spec's worked LTR example property (no manual expenses). -/
def exProperty : Property :=
  { type := PropertyType.LTR, shared := exShared, ltr := some exLtr }

/-- A property whose active loan balance is negative (`loanRemaining = 0`
falls back to a negative `loanAmount`): 12% for 1 year. -/
def c2Shared : SharedInputs :=
  { purchasePrice := 150000, downpayment := 30000, loanAmount := -100000,
    loanRemaining := 0, interestRate := 12, loanTermYears := 1, closingCosts := 0 }

def c2Property : Property :=
  { type := PropertyType.LTR, shared := c2Shared }

/-- LTR payload with no operating costs: gross $3,000, expenses $0. -/
def c6Ltr : LtrDetails :=
  { grossRentPerMonth := 3000, numberOfUnits := 1, pmFeePercent := 0,
    annualPropertyTax := 0, annualInsurance := 0, monthlyRepairReserve := 0 }

/-- First of two properties whose metric records coincide: purchase price
$100, a $10,000,000 immediate manual expense. -/
def c6Expense : ManualExpense :=
  { name := "foundation", estimatedCost := 10000000, timing := ExpenseTiming.IMMEDIATE }

/-- A family of properties differing only in purchase price: no loan, a
$1,000,000 down payment, the no-cost LTR payload and one $10,000,000
immediate manual expense. -/
def c6SharedOf (price : ℚ) : SharedInputs :=
  { purchasePrice := price, downpayment := 1000000, loanAmount := 0,
    loanRemaining := 0, interestRate := 0, loanTermYears := 30, closingCosts := 0 }

def c6prop (price : ℚ) : Property :=
  { type := PropertyType.LTR, shared := c6SharedOf price, ltr := some c6Ltr,
    manualExpenses := [c6Expense] }

/-- First of two properties whose metric records coincide: price $100. -/
def c6p1 : Property := c6prop 100

/-- Second of the pair: identical except the purchase price is $200. -/
def c6p2 : Property := c6prop 200

/-- The worked example plus one $3,000 immediate manual expense. -/
def w1Property : Property :=
  { exProperty with manualExpenses :=
      [{ name := "roof", estimatedCost := 3000, timing := ExpenseTiming.IMMEDIATE }] }

/-- The worked example with purchase price and immediate CapEx zero. -/
def w5Property : Property :=
  { exProperty with shared := { exShared with purchasePrice := 0 } }

/-- The worked example plus a single $1,200 year-1 manual expense. -/
def w8Property : Property :=
  { exProperty with manualExpenses :=
      [{ name := "hvac", estimatedCost := 1200, timing := ExpenseTiming.YEAR_1 }] }

/-- A degraded property: tagged LTR with no detail payload, but with an
active loan (the monthly rate is `1`, so the annuity has clean values). -/
def c10Shared : SharedInputs :=
  { purchasePrice := 50000, downpayment := 10000, loanAmount := 4095,
    loanRemaining := 0, interestRate := 1200, loanTermYears := 1, closingCosts := 0 }

def c10Property : Property :=
  { type := PropertyType.LTR, shared := c10Shared }

/-- A dashboard entry built from the worked example's metrics. -/
def w4Analysis : PropertyAnalysis :=
  { type := PropertyType.LTR, shared := exShared, metrics := calculateMetrics exProperty }

/-! Helper lemmas about `round2` and list folds. -/

theorem round2_eq_of (x : ℚ) (k : ℤ) (h1 : (k : ℚ) ≤ x * 100 + 1/2)
    (h2 : x * 100 + 1/2 < k + 1) : round2 x = (k : ℚ) / 100 := by
  have h : jsRound (x * 100) = k := by
    rw [jsRound, Int.floor_eq_iff]
    exact ⟨h1, h2⟩
  rw [round2, h]

theorem round2_zero : round2 0 = 0 := by
  simpa using round2_eq_of 0 0 (by norm_num) (by norm_num)

theorem round2_mono {x y : ℚ} (h : x ≤ y) : round2 x ≤ round2 y := by
  have hj : jsRound (x * 100) ≤ jsRound (y * 100) := by
    apply Int.floor_mono
    linarith
  rw [round2, round2]
  have hq : ((jsRound (x * 100) : ℚ)) ≤ ((jsRound (y * 100) : ℚ)) := by exact_mod_cast hj
  linarith

theorem round2_sub_intCast (x : ℚ) (k : ℤ) : round2 (x - k) = round2 x - k := by
  rw [round2, round2, jsRound, jsRound]
  have h : (x - k) * 100 + 1/2 = (x * 100 + 1/2) - ((100 * k : ℤ) : ℚ) := by
    push_cast
    ring
  rw [h, Int.floor_sub_int]
  push_cast
  ring

theorem round2_spec (x : ℚ) :
    (∃ k : ℤ, round2 x = (k : ℚ) / 100) ∧
      x - 1/200 < round2 x ∧ round2 x ≤ x + 1/200 := by
  refine ⟨⟨jsRound (x * 100), rfl⟩, ?_, ?_⟩
  · have h := Int.lt_floor_add_one (x * 100 + 1/2)
    rw [round2, jsRound, show x - 1/200 = (x * 100 - 1/2) / 100 by ring,
      div_lt_div_iff₀ (by norm_num : (0:ℚ) < 100) (by norm_num : (0:ℚ) < 100)]
    linarith
  · have h := Int.floor_le (x * 100 + 1/2)
    rw [round2, jsRound, show x + 1/200 = (x * 100 + 1/2) / 100 by ring,
      div_le_div_iff₀ (by norm_num : (0:ℚ) < 100) (by norm_num : (0:ℚ) < 100)]
    linarith

theorem foldl_add_sum {α : Type} (f : α → ℚ) (l : List α) (init : ℚ) :
    l.foldl (fun sum a => sum + f a) init = init + (l.map f).sum := by
  induction l generalizing init with
  | nil => simp
  | cons a l ih =>
    rw [List.foldl_cons, ih, List.map_cons, List.sum_cons]
    ring

/-! The claims. -/

/-- C1: all-or-nothing selection: with `totalManualCapEx > 0` all five
primary fields are the rounded adjusted variants; with `totalManualCapEx == 0`
they are the rounded raw variants. -/
theorem claim_C1_selection_rule (property : Property) :
    (0 < totalManualCapExOf property →
      (calculateMetrics property).netMonthlyCashFlow =
        round2 (adjustedNetMonthlyCashFlowOf property) ∧
      (calculateMetrics property).initialCashInvested =
        round2 (adjustedInitialCashInvestedOf property) ∧
      (calculateMetrics property).cashOnCashReturn =
        round2 (adjustedCashOnCashReturnOf property) ∧
      (calculateMetrics property).capRate = round2 (adjustedCapRateOf property) ∧
      (calculateMetrics property).annualNetCashFlow =
        round2 (adjustedAnnualNetCashFlowOf property)) ∧
    (totalManualCapExOf property = 0 →
      (calculateMetrics property).netMonthlyCashFlow =
        round2 (netMonthlyCashFlowOf property) ∧
      (calculateMetrics property).initialCashInvested =
        round2 (initialCashInvestedOf property) ∧
      (calculateMetrics property).cashOnCashReturn =
        round2 (cashOnCashReturnOf property) ∧
      (calculateMetrics property).capRate = round2 (capRateOf property) ∧
      (calculateMetrics property).annualNetCashFlow =
        round2 (annualNetCashFlowOf property)) := by
  constructor
  · intro h
    simp [calculateMetrics, hasManualCapExOf, h]
  · intro h
    simp [calculateMetrics, hasManualCapExOf, h]

/-- C1 witness: the worked example with a $3,000 immediate expense has
positive manual CapEx, and its primary cap rate is the adjusted one. -/
theorem claim_C1_selection_rule_witness :
    0 < totalManualCapExOf w1Property ∧
    (calculateMetrics w1Property).capRate = round2 (adjustedCapRateOf w1Property) := by
  have h : 0 < totalManualCapExOf w1Property := by
    simp [totalManualCapExOf, immediateCapExOf, year1CapExOf, sumCosts, w1Property,
      exProperty, List.filter_cons]
  exact ⟨h, ((claim_C1_selection_rule w1Property).1 h).2.2.2.1⟩


/-- C5: every division in `calculateMetrics` is guarded: raw cap rate is `0`
at zero purchase price, each cash-on-cash return is `0` at a non-positive
denominator, the adjusted cap rate is `0` at a non-positive total property
cost, and with zero purchase price and zero immediate CapEx both returned
cap rates are `0`. -/
theorem claim_C5_zero_guards (property : Property) :
    (property.shared.purchasePrice = 0 → capRateOf property = 0) ∧
    (¬ 0 < initialCashInvestedOf property → cashOnCashReturnOf property = 0) ∧
    (¬ 0 < adjustedInitialCashInvestedOf property →
      adjustedCashOnCashReturnOf property = 0) ∧
    (¬ 0 < totalPropertyCostOf property → adjustedCapRateOf property = 0) ∧
    (property.shared.purchasePrice = 0 ∧ immediateCapExOf property = 0 →
      (calculateMetrics property).capRate = 0 ∧
      (calculateMetrics property).adjustedCapRate = 0) := by
  refine ⟨?_, ?_, ?_, ?_, ?_⟩
  · intro h
    simp [capRateOf, h]
  · intro h
    simp [cashOnCashReturnOf, h]
  · intro h
    simp [adjustedCashOnCashReturnOf, h]
  · intro h
    simp [adjustedCapRateOf, h]
  · rintro ⟨h1, h2⟩
    have hc : capRateOf property = 0 := by simp [capRateOf, h1]
    have ha : adjustedCapRateOf property = 0 := by
      simp [adjustedCapRateOf, totalPropertyCostOf, h1, h2]
    constructor
    · simp [calculateMetrics, hc, ha, round2_zero]
    · simp [calculateMetrics, ha, round2_zero]

/-- C5 witness: the worked example with purchase price `0` and no manual
expenses has a zero returned cap rate. -/
theorem claim_C5_zero_guards_witness :
    w5Property.shared.purchasePrice = 0 ∧ immediateCapExOf w5Property = 0 ∧
    (calculateMetrics w5Property).capRate = 0 := by
  have h1 : w5Property.shared.purchasePrice = 0 := rfl
  have h2 : immediateCapExOf w5Property = 0 := by
    simp [immediateCapExOf, sumCosts, w5Property, exProperty]
  exact ⟨h1, h2, ((claim_C5_zero_guards w5Property).2.2.2.2 ⟨h1, h2⟩).1⟩

/-- C7: every returned field is its unrounded value rounded to the nearest
cent with ties up: each field is an integer number of cents and lies in the
half-open interval `(u - 1/200, u + 1/200]` around its unrounded value `u`
(which characterises round-half-up to 2 decimals, negative values
included). -/
theorem claim_C7_rounding (property : Property) :
    List.Forall (fun yu : ℚ × ℚ =>
      (∃ k : ℤ, yu.1 = (k : ℚ) / 100) ∧
        yu.2 - 1/200 < yu.1 ∧ yu.1 ≤ yu.2 + 1/200)
      [((calculateMetrics property).monthlyMortgagePayment,
          monthlyMortgagePaymentOf property.shared),
        ((calculateMetrics property).grossMonthlyIncome, grossMonthlyIncomeOf property),
        ((calculateMetrics property).totalMonthlyExpenses, totalMonthlyExpensesOf property),
        ((calculateMetrics property).netMonthlyIncome, netMonthlyIncomeOf property),
        ((calculateMetrics property).netMonthlyCashFlow,
          if hasManualCapExOf property then adjustedNetMonthlyCashFlowOf property
          else netMonthlyCashFlowOf property),
        ((calculateMetrics property).initialCashInvested,
          if hasManualCapExOf property then adjustedInitialCashInvestedOf property
          else initialCashInvestedOf property),
        ((calculateMetrics property).cashOnCashReturn,
          if hasManualCapExOf property then adjustedCashOnCashReturnOf property
          else cashOnCashReturnOf property),
        ((calculateMetrics property).capRate,
          if hasManualCapExOf property then adjustedCapRateOf property
          else capRateOf property),
        ((calculateMetrics property).annualGrossIncome, grossMonthlyIncomeOf property * 12),
        ((calculateMetrics property).annualNetCashFlow,
          if hasManualCapExOf property then adjustedAnnualNetCashFlowOf property
          else annualNetCashFlowOf property),
        ((calculateMetrics property).totalManualCapEx, totalManualCapExOf property),
        ((calculateMetrics property).immediateCapEx, immediateCapExOf property),
        ((calculateMetrics property).year1CapEx, year1CapExOf property),
        ((calculateMetrics property).adjustedInitialCashInvested,
          adjustedInitialCashInvestedOf property),
        ((calculateMetrics property).adjustedCashOnCashReturn,
          adjustedCashOnCashReturnOf property),
        ((calculateMetrics property).adjustedCapRate, adjustedCapRateOf property)] := by
  simp only [List.forall_cons, calculateMetrics]
  exact ⟨round2_spec _, round2_spec _, round2_spec _, round2_spec _, round2_spec _,
    round2_spec _, round2_spec _, round2_spec _, round2_spec _, round2_spec _,
    round2_spec _, round2_spec _, round2_spec _, round2_spec _, round2_spec _,
    round2_spec _, trivial⟩

/-- C8: with only YEAR_1 manual expenses totalling $1,200, the returned
monthly cash flow is exactly $100 below the no-manual-expense value, and the
returned annual figure exactly $1,200 below the rounded raw annual value. -/
theorem claim_C8_year1_reduction (property : Property)
    (hall : ∀ e ∈ property.manualExpenses, e.timing = ExpenseTiming.YEAR_1)
    (htot : sumCosts property.manualExpenses = 1200) :
    (calculateMetrics property).netMonthlyCashFlow =
      (calculateMetrics { property with manualExpenses := [] }).netMonthlyCashFlow - 100 ∧
    (calculateMetrics property).annualNetCashFlow =
      round2 (annualNetCashFlowOf property) - 1200 := by
  have hfilter : property.manualExpenses.filter
      (fun e => decide (e.timing = ExpenseTiming.IMMEDIATE)) = [] := by
    rw [List.filter_eq_nil_iff]
    intro e he
    simp [hall e he]
  have himm : immediateCapExOf property = 0 := by
    rw [immediateCapExOf, hfilter]
    rfl
  have hfilter2 : property.manualExpenses.filter
      (fun e => decide (e.timing = ExpenseTiming.YEAR_1)) = property.manualExpenses := by
    rw [List.filter_eq_self]
    intro e he
    simp [hall e he]
  have hy : year1CapExOf property = 1200 := by
    rw [year1CapExOf, hfilter2]
    exact htot
  have hpos : 0 < totalManualCapExOf property := by
    rw [totalManualCapExOf, himm, hy]
    norm_num
  have hq : totalManualCapExOf { property with manualExpenses := [] } = 0 := by
    simp [totalManualCapExOf, immediateCapExOf, year1CapExOf, sumCosts]
  have hraw : netMonthlyCashFlowOf { property with manualExpenses := [] } =
      netMonthlyCashFlowOf property := rfl
  have hL : (calculateMetrics property).netMonthlyCashFlow =
      round2 (netMonthlyCashFlowOf property - 100) := by
    have hadj : adjustedNetMonthlyCashFlowOf property =
        netMonthlyCashFlowOf property - 100 := by
      rw [adjustedNetMonthlyCashFlowOf, hy]
      norm_num
    simp [calculateMetrics, hasManualCapExOf, hpos, hadj]
  have hR : (calculateMetrics { property with manualExpenses := [] }).netMonthlyCashFlow =
      round2 (netMonthlyCashFlowOf property) := by
    simp [calculateMetrics, hasManualCapExOf, hq, hraw]
  have key : round2 (netMonthlyCashFlowOf property - 100) =
      round2 (netMonthlyCashFlowOf property) - 100 := by
    have h := round2_sub_intCast (netMonthlyCashFlowOf property) 100
    push_cast at h
    exact h
  refine ⟨by rw [hL, key, hR], ?_⟩
  have hA : (calculateMetrics property).annualNetCashFlow =
      round2 (annualNetCashFlowOf property - 1200) := by
    have hadj : adjustedAnnualNetCashFlowOf property =
        annualNetCashFlowOf property - 1200 := by
      rw [adjustedAnnualNetCashFlowOf, hy]
    simp [calculateMetrics, hasManualCapExOf, hpos, hadj]
  have key2 := round2_sub_intCast (annualNetCashFlowOf property) 1200
  push_cast at key2
  rw [hA, key2]

/-- C8 witness: the worked example with a single $1,200 YEAR_1 expense. -/
theorem claim_C8_year1_reduction_witness :
    (∀ e ∈ w8Property.manualExpenses, e.timing = ExpenseTiming.YEAR_1) ∧
    sumCosts w8Property.manualExpenses = 1200 ∧
    (calculateMetrics w8Property).netMonthlyCashFlow =
      (calculateMetrics { w8Property with manualExpenses := [] }).netMonthlyCashFlow
        - 100 := by
  have h1 : ∀ e ∈ w8Property.manualExpenses, e.timing = ExpenseTiming.YEAR_1 := by
    intro e he
    simp only [w8Property, exProperty] at he
    simp only [List.mem_singleton] at he
    rw [he]
  have h2 : sumCosts w8Property.manualExpenses = 1200 := by
    simp [sumCosts, w8Property, exProperty]
  exact ⟨h1, h2, (claim_C8_year1_reduction w8Property h1 h2).1⟩


/-- C2 (amended): the returned mortgage payment is `0` whenever the active
balance is `0` or the monthly rate is `0` — and more generally whenever the
guard `activeLoanBalance > 0 && monthlyRate > 0` fails, negative values
included; when the guard holds it equals the annuity formula rounded to
cents; the monthly rate is `interestRate/100/12`, `n = loanTermYears * 12`,
and the active principal is `loanRemaining` when positive, else
`loanAmount`. -/
theorem claim_C2_amended_mortgage (property : Property) :
    ((activeLoanBalanceOf property.shared = 0 ∨ monthlyRateOf property.shared = 0) →
      (calculateMetrics property).monthlyMortgagePayment = 0) ∧
    (0 < activeLoanBalanceOf property.shared ∧ 0 < monthlyRateOf property.shared →
      (calculateMetrics property).monthlyMortgagePayment =
        round2 (annuityPayment (activeLoanBalanceOf property.shared)
          (monthlyRateOf property.shared) (numPaymentsOf property.shared))) ∧
    (¬ (0 < activeLoanBalanceOf property.shared ∧ 0 < monthlyRateOf property.shared) →
      (calculateMetrics property).monthlyMortgagePayment = 0) ∧
    monthlyRateOf property.shared = property.shared.interestRate / 100 / 12 ∧
    numPaymentsOf property.shared = property.shared.loanTermYears * 12 ∧
    (0 < property.shared.loanRemaining →
      activeLoanBalanceOf property.shared = property.shared.loanRemaining) ∧
    (¬ 0 < property.shared.loanRemaining →
      activeLoanBalanceOf property.shared = property.shared.loanAmount) := by
  have hzero : ∀ h : ¬ (0 < activeLoanBalanceOf property.shared ∧
      0 < monthlyRateOf property.shared),
      (calculateMetrics property).monthlyMortgagePayment = 0 := by
    intro h
    have hp : monthlyMortgagePaymentOf property.shared = 0 := by
      rw [monthlyMortgagePaymentOf, if_neg h]
    simp [calculateMetrics, hp, round2_zero]
  refine ⟨?_, ?_, hzero, rfl, rfl, ?_, ?_⟩
  · intro h
    apply hzero
    rintro ⟨hb, hr⟩
    rcases h with h | h
    · rw [h] at hb
      exact lt_irrefl 0 hb
    · rw [h] at hr
      exact lt_irrefl 0 hr
  · intro h
    have hp : monthlyMortgagePaymentOf property.shared =
        annuityPayment (activeLoanBalanceOf property.shared)
          (monthlyRateOf property.shared) (numPaymentsOf property.shared) := by
      rw [monthlyMortgagePaymentOf, if_pos h, annuityPayment]
      ring
    simp [calculateMetrics, hp]
  · intro h
    rw [activeLoanBalanceOf, if_pos h]
  · intro h
    rw [activeLoanBalanceOf, if_neg h]

/-- C2 counterexample: with a negative active balance (zero `loanRemaining`,
`loanAmount = -100000`) and a nonzero monthly rate, the code returns `0`
while the annuity formula rounds to `-8884.88`: the claim's "otherwise
equals the annuity formula" fails. -/
theorem claim_C2_counterexample :
    ¬ (activeLoanBalanceOf c2Property.shared = 0 ∨
        monthlyRateOf c2Property.shared = 0) ∧
    (calculateMetrics c2Property).monthlyMortgagePayment ≠
      round2 (annuityPayment (activeLoanBalanceOf c2Property.shared)
        (monthlyRateOf c2Property.shared) (numPaymentsOf c2Property.shared)) := by
  have hbal : activeLoanBalanceOf c2Property.shared = -100000 := by
    norm_num [activeLoanBalanceOf, c2Property, c2Shared]
  have hrate : monthlyRateOf c2Property.shared = 1/100 := by
    norm_num [monthlyRateOf, c2Property, c2Shared]
  have hn : numPaymentsOf c2Property.shared = 12 := by
    norm_num [numPaymentsOf, c2Property, c2Shared]
  have hpay : (calculateMetrics c2Property).monthlyMortgagePayment = 0 := by
    have hp : monthlyMortgagePaymentOf c2Property.shared = 0 := by
      rw [monthlyMortgagePaymentOf, if_neg]
      rintro ⟨hb, -⟩
      rw [hbal] at hb
      norm_num at hb
    simp [calculateMetrics, hp, round2_zero]
  constructor
  · rw [hbal, hrate]
    norm_num
  · rw [hpay, hbal, hrate, hn,
      round2_eq_of (annuityPayment (-100000) (1/100) 12) (-888488)
        (by norm_num [annuityPayment]) (by norm_num [annuityPayment])]
    norm_num

/-- C2 witness: the worked example's loan satisfies the guard, and its
returned payment is the rounded annuity formula. -/
theorem claim_C2_amended_mortgage_witness :
    (0 < activeLoanBalanceOf exProperty.shared ∧
      0 < monthlyRateOf exProperty.shared) ∧
    (calculateMetrics exProperty).monthlyMortgagePayment =
      round2 (annuityPayment (activeLoanBalanceOf exProperty.shared)
        (monthlyRateOf exProperty.shared) (numPaymentsOf exProperty.shared)) := by
  have h : 0 < activeLoanBalanceOf exProperty.shared ∧
      0 < monthlyRateOf exProperty.shared := by
    norm_num [activeLoanBalanceOf, monthlyRateOf, exProperty, exShared]
  exact ⟨h, (claim_C2_amended_mortgage exProperty).2.1 h⟩

/-- C3: the LTR and STR income/expense formulas, and the spec's worked LTR
example: gross $3,000, expenses $650, payment $1,199.10 and net monthly
cash flow $1,150.90 (after cent rounding). -/
theorem claim_C3_income_expense (property : Property) :
    (∀ ltr, property.type = PropertyType.LTR → property.ltr = some ltr →
      grossMonthlyIncomeOf property = ltr.grossRentPerMonth * ltr.numberOfUnits ∧
      totalMonthlyExpensesOf property =
        ltr.grossRentPerMonth * ltr.numberOfUnits * (ltr.pmFeePercent / 100) +
          ltr.annualPropertyTax / 12 + ltr.annualInsurance / 12 +
          ltr.monthlyRepairReserve) ∧
    (∀ s, property.type = PropertyType.STR → property.str = some s →
      grossMonthlyIncomeOf property =
        s.daysInMonth * (s.occupancyRate / 100) * s.dailyRate ∧
      totalMonthlyExpensesOf property =
        s.daysInMonth * (s.occupancyRate / 100) * s.dailyRate *
            (s.coHostFeePercent / 100) +
          s.cleaningFeePerStay * s.avgStaysPerMonth +
          s.annualPropertyTax / 12 + s.annualInsurance / 12 + s.monthlyUtilities) ∧
    (calculateMetrics exProperty).grossMonthlyIncome = 3000 ∧
    (calculateMetrics exProperty).totalMonthlyExpenses = 650 ∧
    (calculateMetrics exProperty).monthlyMortgagePayment = 1199.10 ∧
    (calculateMetrics exProperty).netMonthlyCashFlow = 1150.90 := by
  have hcap : ¬ hasManualCapExOf exProperty := by
    simp [hasManualCapExOf, totalManualCapExOf, immediateCapExOf, year1CapExOf,
      sumCosts, exProperty]
  refine ⟨?_, ?_, ?_, ?_, ?_, ?_⟩
  · intro ltr h1 h2
    constructor
    · simp [grossMonthlyIncomeOf, incomeExpensesOf, h1, h2]
    · simp [totalMonthlyExpensesOf, incomeExpensesOf, h1, h2]
  · intro s h1 h2
    rcases hstr : property.ltr with - | ltr
    · constructor
      · simp [grossMonthlyIncomeOf, incomeExpensesOf, h1, h2, hstr]
      · simp [totalMonthlyExpensesOf, incomeExpensesOf, h1, h2, hstr]
    · constructor
      · simp [grossMonthlyIncomeOf, incomeExpensesOf, h1, h2, hstr]
      · simp [totalMonthlyExpensesOf, incomeExpensesOf, h1, h2, hstr]
  · show round2 (grossMonthlyIncomeOf exProperty) = 3000
    rw [show grossMonthlyIncomeOf exProperty = 3000 from by
        norm_num [grossMonthlyIncomeOf, incomeExpensesOf, exProperty, exLtr],
      round2_eq_of 3000 300000 (by norm_num) (by norm_num)]
    norm_num
  · show round2 (totalMonthlyExpensesOf exProperty) = 650
    rw [show totalMonthlyExpensesOf exProperty = 650 from by
        norm_num [totalMonthlyExpensesOf, incomeExpensesOf, exProperty, exLtr],
      round2_eq_of 650 65000 (by norm_num) (by norm_num)]
    norm_num
  · show round2 (monthlyMortgagePaymentOf exProperty.shared) = 1199.10
    rw [show (1199.10 : ℚ) = ((119910 : ℤ) : ℚ) / 100 by norm_num]
    apply round2_eq_of <;>
      norm_num [monthlyMortgagePaymentOf, activeLoanBalanceOf, monthlyRateOf,
        numPaymentsOf, exProperty, exShared]
  · show round2 (if hasManualCapExOf exProperty then
        adjustedNetMonthlyCashFlowOf exProperty else netMonthlyCashFlowOf exProperty) =
      1150.90
    rw [if_neg hcap, show (1150.90 : ℚ) = ((115090 : ℤ) : ℚ) / 100 by norm_num]
    apply round2_eq_of <;>
      norm_num [netMonthlyCashFlowOf, netMonthlyIncomeOf, grossMonthlyIncomeOf,
        totalMonthlyExpensesOf, incomeExpensesOf, monthlyMortgagePaymentOf,
        activeLoanBalanceOf, monthlyRateOf, numPaymentsOf, exProperty, exShared, exLtr]

/-- C3 witness: the LTR branch applied to the worked example. -/
theorem claim_C3_income_expense_witness :
    exProperty.type = PropertyType.LTR ∧ exProperty.ltr = some exLtr ∧
    grossMonthlyIncomeOf exProperty = exLtr.grossRentPerMonth * exLtr.numberOfUnits := by
  exact ⟨rfl, rfl, ((claim_C3_income_expense exProperty).1 exLtr rfl rfl).1⟩


/-- C4: each dollar total of the dashboard aggregation is the plain sum over
the list, the two averages are unweighted means over the property count (on
a nonempty portfolio), the valuation capitalises the summed NOI through
`calculateValuation` (zero at a non-positive market cap rate), unrealized
gain is valuation minus total purchase price, and the two spec examples of
`calculateValuation` hold. -/
theorem claim_C4_portfolio_totals (portfolio : List PropertyAnalysis)
    (marketCapRate : ℚ) :
    (computeTotals portfolio marketCapRate).totalValue =
      (portfolio.map (fun p => p.shared.purchasePrice)).sum ∧
    (computeTotals portfolio marketCapRate).totalCashInvested =
      (portfolio.map (fun p => p.metrics.initialCashInvested)).sum ∧
    (computeTotals portfolio marketCapRate).totalMonthlyCashFlow =
      (portfolio.map (fun p => p.metrics.netMonthlyCashFlow)).sum ∧
    (computeTotals portfolio marketCapRate).totalAnnualCashFlow =
      (portfolio.map (fun p => p.metrics.annualNetCashFlow)).sum ∧
    (computeTotals portfolio marketCapRate).totalAnnualNOI =
      (portfolio.map (fun p => p.metrics.netMonthlyIncome * 12)).sum ∧
    (portfolio ≠ [] →
      (computeTotals portfolio marketCapRate).avgCapRate =
        (portfolio.map (fun p => p.metrics.capRate)).sum / (portfolio.length : ℚ) ∧
      (computeTotals portfolio marketCapRate).avgCoC =
        (portfolio.map (fun p => p.metrics.cashOnCashReturn)).sum /
          (portfolio.length : ℚ)) ∧
    (computeTotals portfolio marketCapRate).portfolioValuation =
      calculateValuation (computeTotals portfolio marketCapRate).totalAnnualNOI
        marketCapRate ∧
    (marketCapRate ≤ 0 →
      (computeTotals portfolio marketCapRate).portfolioValuation = 0) ∧
    (0 < marketCapRate →
      (computeTotals portfolio marketCapRate).portfolioValuation =
        (portfolio.map (fun p => p.metrics.netMonthlyIncome * 12)).sum /
          (marketCapRate / 100)) ∧
    (computeTotals portfolio marketCapRate).equityGain =
      (computeTotals portfolio marketCapRate).portfolioValuation -
        (computeTotals portfolio marketCapRate).totalValue ∧
    calculateValuation 60000 6 = 1000000 ∧
    calculateValuation 60000 0 = 0 := by
  have hsum : ∀ f : PropertyAnalysis → ℚ,
      portfolio.foldl (fun sum p => sum + f p) 0 = (portfolio.map f).sum := by
    intro f
    rw [foldl_add_sum]
    ring
  refine ⟨hsum _, hsum _, hsum _, hsum _, hsum _, ?_, rfl, ?_, ?_, rfl, ?_, ?_⟩
  · intro h
    have hlen : 0 < portfolio.length := List.length_pos.mpr h
    constructor
    · show (if 0 < portfolio.length then
          portfolio.foldl (fun sum p => sum + p.metrics.capRate) 0 /
            (portfolio.length : ℚ) else 0) = _
      rw [if_pos hlen, hsum _]
    · show (if 0 < portfolio.length then
          portfolio.foldl (fun sum p => sum + p.metrics.cashOnCashReturn) 0 /
            (portfolio.length : ℚ) else 0) = _
      rw [if_pos hlen, hsum _]
  · intro h
    show calculateValuation _ marketCapRate = 0
    rw [calculateValuation, if_pos h]
  · intro h
    show calculateValuation
        (portfolio.foldl (fun sum p => sum + p.metrics.netMonthlyIncome * 12) 0)
        marketCapRate = _
    rw [calculateValuation, if_neg (not_le.mpr h), hsum _]
  · norm_num [calculateValuation]
  · simp [calculateValuation]

/-- C4 witness: a singleton portfolio is nonempty and its average cap rate
is the mean over one property. -/
theorem claim_C4_portfolio_totals_witness :
    ([w4Analysis] : List PropertyAnalysis) ≠ [] ∧
    (computeTotals [w4Analysis] 6).avgCapRate =
      (([w4Analysis] : List PropertyAnalysis).map
        (fun p => p.metrics.capRate)).sum / (([w4Analysis] :
          List PropertyAnalysis).length : ℚ) := by
  have h : ([w4Analysis] : List PropertyAnalysis) ≠ [] := by simp
  exact ⟨h, ((claim_C4_portfolio_totals [w4Analysis] 6).2.2.2.2.2.1 h).1⟩


theorem c6_noi (P : ℚ) : annualNOIOf (c6prop P) = 36000 := by
  norm_num [annualNOIOf, netMonthlyIncomeOf, grossMonthlyIncomeOf,
    totalMonthlyExpensesOf, incomeExpensesOf, c6prop, c6Ltr]

theorem c6_eval (P : ℚ) (hP : 0 < P)
    (h36 : round2 (36000 / (P + 10000000) * 100) = 36/100) :
    calculateMetrics (c6prop P) =
      { monthlyMortgagePayment := 0, grossMonthlyIncome := 3000,
        totalMonthlyExpenses := 0, netMonthlyIncome := 3000,
        netMonthlyCashFlow := 3000, initialCashInvested := 11000000,
        cashOnCashReturn := 33/100, capRate := 36/100, annualGrossIncome := 36000,
        annualNetCashFlow := 36000, totalManualCapEx := 10000000,
        immediateCapEx := 10000000, year1CapEx := 0,
        adjustedInitialCashInvested := 11000000,
        adjustedCashOnCashReturn := 33/100, adjustedCapRate := 36/100 } := by
  have hie : incomeExpensesOf (c6prop P) = (3000, 0) := by
    norm_num [incomeExpensesOf, c6prop, c6Ltr]
  have hmort : monthlyMortgagePaymentOf (c6prop P).shared = 0 := by
    rw [monthlyMortgagePaymentOf, if_neg]
    rintro ⟨-, hr⟩
    norm_num [monthlyRateOf, c6prop, c6SharedOf] at hr
  have himm : immediateCapExOf (c6prop P) = 10000000 := by
    simp [immediateCapExOf, sumCosts, c6prop, c6Expense, List.filter_cons]
  have hy1 : year1CapExOf (c6prop P) = 0 := by
    simp [year1CapExOf, sumCosts, c6prop, c6Expense, List.filter_cons]
  have hgross : grossMonthlyIncomeOf (c6prop P) = 3000 := by
    rw [grossMonthlyIncomeOf, hie]
  have hexp : totalMonthlyExpensesOf (c6prop P) = 0 := by
    rw [totalMonthlyExpensesOf, hie]
  have hnmi : netMonthlyIncomeOf (c6prop P) = 3000 := by
    rw [netMonthlyIncomeOf, hgross, hexp]
    norm_num
  have hnmcf : netMonthlyCashFlowOf (c6prop P) = 3000 := by
    rw [netMonthlyCashFlowOf, hnmi, hmort]
    norm_num
  have hinit : initialCashInvestedOf (c6prop P) = 1000000 := by
    norm_num [initialCashInvestedOf, downPaymentOf, c6prop, c6SharedOf]
  have hann : annualNetCashFlowOf (c6prop P) = 36000 := by
    rw [annualNetCashFlowOf, hnmcf]
    norm_num
  have htot : totalManualCapExOf (c6prop P) = 10000000 := by
    rw [totalManualCapExOf, himm, hy1]
    norm_num
  have hai : adjustedInitialCashInvestedOf (c6prop P) = 11000000 := by
    rw [adjustedInitialCashInvestedOf, hinit, himm]
    norm_num
  have haa : adjustedAnnualNetCashFlowOf (c6prop P) = 36000 := by
    rw [adjustedAnnualNetCashFlowOf, hann, hy1]
    norm_num
  have hanm : adjustedNetMonthlyCashFlowOf (c6prop P) = 3000 := by
    rw [adjustedNetMonthlyCashFlowOf, hnmcf, hy1]
    norm_num
  have hacoc : adjustedCashOnCashReturnOf (c6prop P) = 18/55 := by
    rw [adjustedCashOnCashReturnOf, hai, haa]
    norm_num
  have htpc : totalPropertyCostOf (c6prop P) = P + 10000000 := by
    rw [totalPropertyCostOf, himm]
    norm_num [c6prop, c6SharedOf]
  have hacap : adjustedCapRateOf (c6prop P) = 36000 / (P + 10000000) * 100 := by
    rw [adjustedCapRateOf, htpc, c6_noi, if_pos (by linarith : (0:ℚ) < P + 10000000)]
  have hpos : (0:ℚ) < 10000000 := by norm_num
  have r3000 : round2 (3000 : ℚ) = 3000 := by
    rw [round2_eq_of _ 300000 (by norm_num) (by norm_num)]
    norm_num
  have r11m : round2 (11000000 : ℚ) = 11000000 := by
    rw [round2_eq_of _ 1100000000 (by norm_num) (by norm_num)]
    norm_num
  have r1855 : round2 (18/55 : ℚ) = 33/100 := by
    rw [round2_eq_of _ 33 (by norm_num) (by norm_num)]
    norm_num
  have r36000 : round2 (36000 : ℚ) = 36000 := by
    rw [round2_eq_of _ 3600000 (by norm_num) (by norm_num)]
    norm_num
  have r10m : round2 (10000000 : ℚ) = 10000000 := by
    rw [round2_eq_of _ 1000000000 (by norm_num) (by norm_num)]
    norm_num
  simp only [calculateMetrics, hasManualCapExOf, htot]
  rw [if_pos hpos, if_pos hpos, if_pos hpos, if_pos hpos, if_pos hpos]
  rw [hmort, hgross, hexp, hnmi, hanm, hai, hacoc, hacap, haa, himm, hy1, h36]
  rw [show (3000 : ℚ) * 12 = 36000 by norm_num]
  rw [round2_zero, r3000, r11m, r1855, r36000, r10m]

/-- C6 (amended): the adjusted variants are always present — the
`adjusted*` fields hold the rounded adjusted values whatever the selection
picks, and `netMonthlyIncome` always holds the raw pre-debt value; when
`totalManualCapEx == 0` the primary fields hold the raw values.  (The raw
values are not recoverable once `totalManualCapEx > 0`; see the
counterexample.) -/
theorem claim_C6_amended_fields (property : Property) :
    (calculateMetrics property).adjustedInitialCashInvested =
      round2 (adjustedInitialCashInvestedOf property) ∧
    (calculateMetrics property).adjustedCashOnCashReturn =
      round2 (adjustedCashOnCashReturnOf property) ∧
    (calculateMetrics property).adjustedCapRate =
      round2 (adjustedCapRateOf property) ∧
    (calculateMetrics property).netMonthlyIncome =
      round2 (netMonthlyIncomeOf property) ∧
    (totalManualCapExOf property = 0 →
      (calculateMetrics property).netMonthlyCashFlow =
        round2 (netMonthlyCashFlowOf property) ∧
      (calculateMetrics property).initialCashInvested =
        round2 (initialCashInvestedOf property) ∧
      (calculateMetrics property).cashOnCashReturn =
        round2 (cashOnCashReturnOf property) ∧
      (calculateMetrics property).capRate = round2 (capRateOf property) ∧
      (calculateMetrics property).annualNetCashFlow =
        round2 (annualNetCashFlowOf property)) := by
  refine ⟨rfl, rfl, rfl, rfl, ?_⟩
  intro h
  simp [calculateMetrics, hasManualCapExOf, h]

/-- C6 counterexample: two properties (purchase price $100 vs $200) produce
identical `FinancialMetrics` records while their raw cap rates differ
(36,000% vs 18,000%), so no consumer of the record can recover the
unadjusted cap rate. -/
theorem claim_C6_counterexample :
    calculateMetrics c6p1 = calculateMetrics c6p2 ∧
    round2 (capRateOf c6p1) ≠ round2 (capRateOf c6p2) := by
  constructor
  · rw [show c6p1 = c6prop 100 from rfl, show c6p2 = c6prop 200 from rfl,
      c6_eval 100 (by norm_num)
        (by rw [round2_eq_of _ 36 (by norm_num) (by norm_num)]; norm_num),
      c6_eval 200 (by norm_num)
        (by rw [round2_eq_of _ 36 (by norm_num) (by norm_num)]; norm_num)]
  · have k1 : capRateOf c6p1 = 36000 := by
      rw [show c6p1 = c6prop 100 from rfl, capRateOf, c6_noi]
      norm_num [c6prop, c6SharedOf]
    have k2 : capRateOf c6p2 = 18000 := by
      rw [show c6p2 = c6prop 200 from rfl, capRateOf, c6_noi]
      norm_num [c6prop, c6SharedOf]
    rw [k1, k2, round2_eq_of (36000 : ℚ) 3600000 (by norm_num) (by norm_num),
      round2_eq_of (18000 : ℚ) 1800000 (by norm_num) (by norm_num)]
    norm_num


theorem geom_pos {x : ℚ} (hx : 0 < x) {n : ℕ} (hn : n ≠ 0) :
    0 < ∑ k in Finset.range n, x ^ k :=
  Finset.sum_pos (fun k _ => pow_pos hx k) (Finset.nonempty_range_iff.mpr hn)

theorem annuity_factor_eq {m : ℚ} (hm : 0 < m) (n : ℕ) :
    m * (1 + m) ^ n / ((1 + m) ^ n - 1) =
      (1 + m) ^ n / ∑ k in Finset.range n, (1 + m) ^ k := by
  have hg : (1 + m) ^ n - 1 = (∑ k in Finset.range n, (1 + m) ^ k) * m := by
    have h := geom_sum_mul (1 + m) n
    rw [add_sub_cancel_left] at h
    exact h.symm
  rw [hg, mul_comm (∑ k in Finset.range n, (1 + m) ^ k) m]
  exact mul_div_mul_left _ _ (ne_of_gt hm)

theorem annuity_factor_mono {m1 m2 : ℚ} (h1 : 0 < m1) (hm : m1 ≤ m2) (n : ℕ) :
    m1 * (1 + m1) ^ n / ((1 + m1) ^ n - 1) ≤
      m2 * (1 + m2) ^ n / ((1 + m2) ^ n - 1) := by
  rcases Nat.eq_zero_or_pos n with hn | hn
  · subst hn
    simp
  · have h2 : 0 < m2 := lt_of_lt_of_le h1 hm
    have hn0 : n ≠ 0 := hn.ne'
    rw [annuity_factor_eq h1 n, annuity_factor_eq h2 n]
    have hx0 : (0:ℚ) < 1 + m1 := by linarith
    have hy0 : (0:ℚ) < 1 + m2 := by linarith
    have hxy : (1:ℚ) + m1 ≤ 1 + m2 := by linarith
    have hGx : 0 < ∑ k in Finset.range n, (1 + m1) ^ k := geom_pos hx0 hn0
    have hGy : 0 < ∑ k in Finset.range n, (1 + m2) ^ k := geom_pos hy0 hn0
    rw [div_le_div_iff₀ hGx hGy, Finset.mul_sum, Finset.mul_sum]
    apply Finset.sum_le_sum
    intro k hk
    have hkn : k ≤ n := (Finset.mem_range.mp hk).le
    have e1 : (1 + m1) ^ n = (1 + m1) ^ (n - k) * (1 + m1) ^ k := by
      rw [← pow_add, Nat.sub_add_cancel hkn]
    have e2 : (1 + m2) ^ n = (1 + m2) ^ (n - k) * (1 + m2) ^ k := by
      rw [← pow_add, Nat.sub_add_cancel hkn]
    rw [e1, e2]
    have hp : (1 + m1) ^ (n - k) ≤ (1 + m2) ^ (n - k) :=
      pow_le_pow_left₀ hx0.le hxy _
    calc (1 + m1) ^ (n - k) * (1 + m1) ^ k * (1 + m2) ^ k
        = (1 + m1) ^ (n - k) * ((1 + m1) ^ k * (1 + m2) ^ k) := by ring
      _ ≤ (1 + m2) ^ (n - k) * ((1 + m1) ^ k * (1 + m2) ^ k) :=
          mul_le_mul_of_nonneg_right hp
            (mul_nonneg (pow_nonneg hx0.le k) (pow_nonneg hy0.le k))
      _ = (1 + m2) ^ (n - k) * (1 + m2) ^ k * (1 + m1) ^ k := by ring

theorem payterm_mono (B : ℚ) (n : ℕ) {m1 m2 : ℚ} (hm : m1 ≤ m2) :
    (if 0 < B ∧ 0 < m1 then B * (m1 * (1 + m1) ^ n) / ((1 + m1) ^ n - 1) else 0) ≤
      (if 0 < B ∧ 0 < m2 then B * (m2 * (1 + m2) ^ n) / ((1 + m2) ^ n - 1)
        else 0) := by
  by_cases hB : 0 < B
  · by_cases h1 : 0 < m1
    · have h2 : 0 < m2 := lt_of_lt_of_le h1 hm
      rw [if_pos ⟨hB, h1⟩, if_pos ⟨hB, h2⟩]
      calc B * (m1 * (1 + m1) ^ n) / ((1 + m1) ^ n - 1)
          = B * (m1 * (1 + m1) ^ n / ((1 + m1) ^ n - 1)) := by ring
        _ ≤ B * (m2 * (1 + m2) ^ n / ((1 + m2) ^ n - 1)) :=
            mul_le_mul_of_nonneg_left (annuity_factor_mono h1 hm n) hB.le
        _ = B * (m2 * (1 + m2) ^ n) / ((1 + m2) ^ n - 1) := by ring
    · rw [if_neg (fun h => h1 h.2)]
      by_cases h2 : 0 < m2
      · rw [if_pos ⟨hB, h2⟩]
        rcases Nat.eq_zero_or_pos n with hn | hn
        · subst hn
          simp
        · have hu : 1 < (1 + m2) ^ n := one_lt_pow₀ (by linarith) hn.ne'
          apply div_nonneg
          · exact mul_nonneg hB.le (mul_nonneg h2.le (pow_nonneg (by linarith) n))
          · linarith
      · rw [if_neg (fun h => h2 h.2)]
  · rw [if_neg (fun h => hB h.1), if_neg (fun h => hB h.1)]

theorem mortgage_payment_mono (shared : SharedInputs) {r1 r2 : ℚ} (h12 : r1 ≤ r2) :
    monthlyMortgagePaymentOf { shared with interestRate := r1 } ≤
      monthlyMortgagePaymentOf { shared with interestRate := r2 } := by
  have hm : r1 / 100 / 12 ≤ r2 / 100 / 12 := by linarith
  exact payterm_mono (activeLoanBalanceOf shared) (numPaymentsOf shared) hm

/-- C9: for a fixed property with a positive active balance, the returned
mortgage payment is non-decreasing in the interest rate, and it is `0` at a
zero rate or a zero active balance. -/
theorem claim_C9_rate_monotonicity (property : Property) (r1 r2 : ℚ)
    (hbal : 0 < activeLoanBalanceOf property.shared) (h12 : r1 ≤ r2) :
    (calculateMetrics (setRate property r1)).monthlyMortgagePayment ≤
      (calculateMetrics (setRate property r2)).monthlyMortgagePayment ∧
    (calculateMetrics (setRate property 0)).monthlyMortgagePayment = 0 ∧
    (∀ q : Property, activeLoanBalanceOf q.shared = 0 →
      (calculateMetrics q).monthlyMortgagePayment = 0) := by
  refine ⟨?_, ?_, ?_⟩
  · show round2 (monthlyMortgagePaymentOf (setRate property r1).shared) ≤
      round2 (monthlyMortgagePaymentOf (setRate property r2).shared)
    exact round2_mono (mortgage_payment_mono property.shared h12)
  · have h0 : monthlyMortgagePaymentOf (setRate property 0).shared = 0 := by
      rw [monthlyMortgagePaymentOf, if_neg]
      rintro ⟨-, hr⟩
      norm_num [monthlyRateOf, setRate] at hr
    simp [calculateMetrics, h0, round2_zero]
  · intro q hq
    have h0 : monthlyMortgagePaymentOf q.shared = 0 := by
      rw [monthlyMortgagePaymentOf, if_neg]
      rintro ⟨hb, -⟩
      rw [hq] at hb
      exact lt_irrefl 0 hb
    simp [calculateMetrics, h0, round2_zero]

/-- C9 witness: the worked example's loan at 5% pays no more than at 6%. -/
theorem claim_C9_rate_monotonicity_witness :
    0 < activeLoanBalanceOf exProperty.shared ∧ (5:ℚ) ≤ 6 ∧
    (calculateMetrics (setRate exProperty 5)).monthlyMortgagePayment ≤
      (calculateMetrics (setRate exProperty 6)).monthlyMortgagePayment := by
  have hb : 0 < activeLoanBalanceOf exProperty.shared := by
    norm_num [activeLoanBalanceOf, exProperty, exShared]
  exact ⟨hb, by norm_num,
    (claim_C9_rate_monotonicity exProperty 5 6 hb (by norm_num)).1⟩


/-- C10: when the variant tag has no matching detail payload, gross income
and expenses degrade to `0` while the mortgage, cash-invested and CapEx
fields are still computed from the shared and manual-expense inputs, so the
returned monthly cash flow is the rounded negation of the mortgage payment
(less year-1 CapEx over 12 when manual CapEx exists) — and on a concrete
degraded property with a loan the record is not all-zero. -/
theorem claim_C10_degraded_payload (property : Property)
    (hltr : property.type = PropertyType.LTR → property.ltr = none)
    (hstr : property.type = PropertyType.STR → property.str = none) :
    (calculateMetrics property).grossMonthlyIncome = 0 ∧
    (calculateMetrics property).totalMonthlyExpenses = 0 ∧
    (calculateMetrics property).monthlyMortgagePayment =
      round2 (monthlyMortgagePaymentOf property.shared) ∧
    (calculateMetrics property).initialCashInvested =
      round2 ((if 0 < totalManualCapExOf property then immediateCapExOf property
          else 0) + downPaymentOf property.shared + property.shared.closingCosts) ∧
    (calculateMetrics property).immediateCapEx = round2 (immediateCapExOf property) ∧
    (calculateMetrics property).year1CapEx = round2 (year1CapExOf property) ∧
    (calculateMetrics property).netMonthlyCashFlow =
      round2 (-(monthlyMortgagePaymentOf property.shared) -
        (if 0 < totalManualCapExOf property then year1CapExOf property / 12
          else 0)) ∧
    (calculateMetrics c10Property).netMonthlyCashFlow ≠ 0 := by
  have hie : incomeExpensesOf property = (0, 0) := by
    cases htype : property.type with
    | LTR => rw [incomeExpensesOf, htype, hltr htype]
    | STR => rw [incomeExpensesOf, htype, hstr htype]
  have hg : grossMonthlyIncomeOf property = 0 := by
    rw [grossMonthlyIncomeOf, hie]
  have hx : totalMonthlyExpensesOf property = 0 := by
    rw [totalMonthlyExpensesOf, hie]
  have hnmi : netMonthlyIncomeOf property = 0 := by
    rw [netMonthlyIncomeOf, hg, hx]
    norm_num
  have hnmcf : netMonthlyCashFlowOf property =
      -(monthlyMortgagePaymentOf property.shared) := by
    rw [netMonthlyCashFlowOf, hnmi]
    ring
  refine ⟨?_, ?_, rfl, ?_, rfl, rfl, ?_, ?_⟩
  · show round2 (grossMonthlyIncomeOf property) = 0
    rw [hg, round2_zero]
  · show round2 (totalMonthlyExpensesOf property) = 0
    rw [hx, round2_zero]
  · show round2 (if hasManualCapExOf property then
        adjustedInitialCashInvestedOf property else initialCashInvestedOf property) = _
    congr 1
    by_cases hc : 0 < totalManualCapExOf property
    · simp only [hasManualCapExOf]
      rw [if_pos hc, if_pos hc, adjustedInitialCashInvestedOf, initialCashInvestedOf]
      ring
    · simp only [hasManualCapExOf]
      rw [if_neg hc, if_neg hc, initialCashInvestedOf]
      ring
  · show round2 (if hasManualCapExOf property then
        adjustedNetMonthlyCashFlowOf property else netMonthlyCashFlowOf property) = _
    congr 1
    by_cases hc : 0 < totalManualCapExOf property
    · simp only [hasManualCapExOf]
      rw [if_pos hc, if_pos hc, adjustedNetMonthlyCashFlowOf, hnmcf]
    · simp only [hasManualCapExOf]
      rw [if_neg hc, if_neg hc, hnmcf]
      ring
  · have hc0 : totalManualCapExOf c10Property = 0 := by
      simp [totalManualCapExOf, immediateCapExOf, year1CapExOf, sumCosts, c10Property]
    have hfin : (calculateMetrics c10Property).netMonthlyCashFlow =
        round2 (netMonthlyCashFlowOf c10Property) := by
      simp [calculateMetrics, hasManualCapExOf, hc0]
    have hval : netMonthlyCashFlowOf c10Property = -4096 := by
      norm_num [netMonthlyCashFlowOf, netMonthlyIncomeOf, grossMonthlyIncomeOf,
        totalMonthlyExpensesOf, incomeExpensesOf, monthlyMortgagePaymentOf,
        activeLoanBalanceOf, monthlyRateOf, numPaymentsOf, c10Property, c10Shared]
    rw [hfin, hval, round2_eq_of (-4096 : ℚ) (-409600) (by norm_num) (by norm_num)]
    norm_num

/-- C10 witness: the degraded property is LTR-tagged with no payload. -/
theorem claim_C10_degraded_payload_witness :
    (c10Property.type = PropertyType.LTR → c10Property.ltr = none) ∧
    (c10Property.type = PropertyType.STR → c10Property.str = none) ∧
    (calculateMetrics c10Property).grossMonthlyIncome = 0 := by
  have h1 : c10Property.type = PropertyType.LTR → c10Property.ltr = none :=
    fun _ => rfl
  have h2 : c10Property.type = PropertyType.STR → c10Property.str = none :=
    fun _ => rfl
  exact ⟨h1, h2, (claim_C10_degraded_payload c10Property h1 h2).1⟩

end VDG
